import Mathlib

/-!
Shallow embedding of the Shogun first-order stochastic optimization core
(`src/shogun/optimization/FirstOrderStochasticMinimizer.cpp`) and of the
Bray-Curtis distance kernel (`src/shogun/distance/BrayCurtisDistance.cpp`).

Conventions of the embedding:
* `float64_t` values are modelled as rationals (`ℚ`); `int32_t` counters as `Int`.
* `shared_ptr` collaborators whose behaviour is never queried by this core
  (the cost function, the descend updater) are modelled as `Option Nat`
  pointer handles: `none` is the null pointer, `some k` a non-null object.
* A `require(cond, msg)` macro call throws a `ShogunException` carrying `msg`
  and aborts the method before any later statement runs.  Each method is
  therefore embedded as a function returning a pair: the state of the object
  (respectively the vector it mutates) after the call, and `Option String`,
  `some msg` exactly when the method threw.
-/

/-- A learning-rate schedule (`LearningRate` collaborator).  `ptr` models the
`shared_ptr` object identity used by the `!=` guard in `set_learning_rate`;
`get_learning_rate` maps the iteration counter to the step-size multiplier. -/
structure LearningRate where
  ptr : Nat
  get_learning_rate : Int → ℚ

/-- A penalty strategy (`Penalty` hierarchy).  The two Booleans model the
`dynamic_pointer_cast<ProximalPenalty>` and `dynamic_pointer_cast<SparsePenalty>`
capability tests; `update_variable_for_proximity` is the proximal correction
applied to the variable vector with the effective weight. -/
structure Penalty where
  isProximal : Bool
  isSparse : Bool
  update_variable_for_proximity : List ℚ → ℚ → List ℚ

/-- The fields of `FirstOrderStochasticMinimizer` relevant to this core,
including `m_fun`, `m_penalty_weight` and `m_penalty_type` inherited from the
`FirstOrderMinimizer` base. -/
structure FirstOrderStochasticMinimizer where
  m_fun : Option Nat
  m_gradient_updater : Option Nat
  m_learning_rate : Option LearningRate
  m_penalty_type : Option Penalty
  m_penalty_weight : ℚ
  m_num_passes : Int
  m_cur_passes : Int
  m_iter_counter : Int

namespace FirstOrderStochasticMinimizer

/-- `set_gradient_updater`: `require(gradient_updater, "Gradient updater must set")`,
then assign, skipping the self-assignment when the pointer is unchanged. -/
def set_gradient_updater (s : FirstOrderStochasticMinimizer)
    (gradient_updater : Option Nat) :
    FirstOrderStochasticMinimizer × Option String :=
  if gradient_updater = none then
    (s, some "Gradient updater must set")
  else if s.m_gradient_updater ≠ gradient_updater then
    ({ s with m_gradient_updater := gradient_updater }, none)
  else
    (s, none)

/-- `set_number_passes`: `require(num_passes>0, ...)`, then store. -/
def set_number_passes (s : FirstOrderStochasticMinimizer) (num_passes : Int) :
    FirstOrderStochasticMinimizer × Option String :=
  if num_passes > 0 then
    ({ s with m_num_passes := num_passes }, none)
  else
    (s, some ("The number (" ++ toString num_passes ++
      ") to go through data must be positive"))

/-- The `shared_ptr` identity of an optional learning-rate object, compared by
the `!=` guard in `set_learning_rate` (null compares equal only to null). -/
def lrPtr : Option LearningRate → Option Nat :=
  Option.map LearningRate.ptr

/-- `set_learning_rate`: no null check; assign, skipping the self-assignment
when the pointer is unchanged. -/
def set_learning_rate (s : FirstOrderStochasticMinimizer)
    (learning_rate : Option LearningRate) :
    FirstOrderStochasticMinimizer × Option String :=
  if lrPtr s.m_learning_rate ≠ lrPtr learning_rate then
    ({ s with m_learning_rate := learning_rate }, none)
  else
    (s, none)

/-- `do_proximal_operation`: when the penalty is proximal-capable, compute the
effective weight (scaled by the current learning rate when the penalty is also
sparse, with a mandatory-learning-rate `require`) and apply the proximal
correction to `variable_reference`; otherwise do nothing. -/
def do_proximal_operation (s : FirstOrderStochasticMinimizer)
    (variable_reference : List ℚ) : List ℚ × Option String :=
  match s.m_penalty_type with
  | none => (variable_reference, none)
  | some p =>
    if p.isProximal then
      if p.isSparse then
        match s.m_learning_rate with
        | none =>
          (variable_reference,
           some "Learning rate must set when Sparse Penalty (eg, L1) is used")
        | some lr =>
          (p.update_variable_for_proximity variable_reference
            (s.m_penalty_weight * lr.get_learning_rate s.m_iter_counter), none)
      else
        (p.update_variable_for_proximity variable_reference s.m_penalty_weight,
         none)
    else
      (variable_reference, none)

/-- `init_minimization`: three `require` checks (cost function set, updater
set, positive pass budget), then reset the pass counter. -/
def init_minimization (s : FirstOrderStochasticMinimizer) :
    FirstOrderStochasticMinimizer × Option String :=
  if s.m_fun = none then
    (s, some "Cost function must set")
  else if s.m_gradient_updater = none then
    (s, some "Descend updater must set")
  else if ¬ (s.m_num_passes > 0) then
    (s, some "The number to go through data must set")
  else
    ({ s with m_cur_passes := 0 }, none)

/-- `init` (constructor-time initialization): null the collaborators and zero
every counter.  The `SG_ADD` parameter-registration side effects are external
serialization infrastructure and carry no state of this core. -/
def init (s : FirstOrderStochasticMinimizer) : FirstOrderStochasticMinimizer :=
  { s with
    m_gradient_updater := none
    m_learning_rate := none
    m_num_passes := 0
    m_cur_passes := 0
    m_iter_counter := 0 }

end FirstOrderStochasticMinimizer

namespace BrayCurtisDistance

/-- The accumulation loop of `BrayCurtisDistance::compute`: one pass over the
paired entries, accumulating `s1 += fabs(a_i - b_i)` and `s2 += fabs(a_i + b_i)`. -/
def sums (avec bvec : List ℚ) : ℚ × ℚ :=
  (avec.zip bvec).foldl
    (fun s ab => (s.1 + |ab.1 - ab.2|, s.2 + |ab.1 + ab.2|)) (0, 0)

/-- `BrayCurtisDistance::compute` on the two feature vectors: the division-by-
zero trap returns `0` when `s2 == 0`, else `s1/s2`. -/
def compute (avec bvec : List ℚ) : ℚ :=
  if (sums avec bvec).2 = 0 then 0
  else (sums avec bvec).1 / (sums avec bvec).2

end BrayCurtisDistance

/-- An L1-style penalty: proximal-capable and sparsity-inducing;
soft-thresholds each entry toward zero by the effective weight. -/
def exL1 : Penalty where
  isProximal := true
  isSparse := true
  update_variable_for_proximity v w :=
    v.map (fun x => if w < x then x - w else if x < -w then x + w else 0)

/-- An L2-style penalty: proximal-capable but dense; shrinks each entry
proportionally. -/
def exL2 : Penalty where
  isProximal := true
  isSparse := false
  update_variable_for_proximity v w := v.map (fun x => x / (1 + w))

/-- A plain penalty: contributes to the cost only, no proximal capability. -/
def exPlain : Penalty where
  isProximal := false
  isSparse := false
  update_variable_for_proximity v _ := v

/-- An inverse-time learning-rate schedule. -/
def exLR : LearningRate where
  ptr := 7
  get_learning_rate t := 1 / (1 + (t : ℚ))

/-- A fully configured minimizer: cost function, updater, learning rate,
sparse proximal penalty, positive pass budget. -/
def exState : FirstOrderStochasticMinimizer where
  m_fun := some 0
  m_gradient_updater := some 1
  m_learning_rate := some exLR
  m_penalty_type := some exL1
  m_penalty_weight := 1 / 20
  m_num_passes := 1
  m_cur_passes := 0
  m_iter_counter := 0

/-- `exState` with the proximal-but-dense penalty. -/
def exStateL2 : FirstOrderStochasticMinimizer :=
  { exState with m_penalty_type := some exL2 }

/-- `exState` with the non-proximal penalty. -/
def exStatePlain : FirstOrderStochasticMinimizer :=
  { exState with m_penalty_type := some exPlain }

/-- `exState` with no learning-rate schedule (its sparse proximal penalty kept). -/
def ex2 : FirstOrderStochasticMinimizer :=
  { exState with m_learning_rate := none }

/-- `exState` mid-run: a nonzero iteration counter. -/
def ex4 : FirstOrderStochasticMinimizer :=
  { exState with m_iter_counter := 5 }

/-- C1: for a configured penalty, `do_proximal_operation` applies the proximal
correction with the configured weight when the penalty is proximal-but-dense,
with the weight additionally multiplied by the learning rate at the current
iteration counter when the penalty is also sparsity-inducing, and leaves the
variable vector unchanged when the penalty is not proximal-capable. -/
theorem C1_do_proximal_operation (s : FirstOrderStochasticMinimizer)
    (p : Penalty) (v : List ℚ) (hp : s.m_penalty_type = some p) :
    (p.isProximal = false → s.do_proximal_operation v = (v, none)) ∧
    (p.isProximal = true → p.isSparse = false →
      s.do_proximal_operation v =
        (p.update_variable_for_proximity v s.m_penalty_weight, none)) ∧
    (∀ lr, p.isProximal = true → p.isSparse = true →
      s.m_learning_rate = some lr →
      s.do_proximal_operation v =
        (p.update_variable_for_proximity v
          (s.m_penalty_weight * lr.get_learning_rate s.m_iter_counter), none)) := by
  refine ⟨fun h1 => ?_, fun h1 h2 => ?_, fun lr h1 h2 hlr => ?_⟩ <;>
    simp [FirstOrderStochasticMinimizer.do_proximal_operation, hp, h1, *]

/-- C1 witness: the three penalty shapes at concrete states. -/
theorem C1_do_proximal_operation_witness :
    exStatePlain.do_proximal_operation [3] = ([3], none) ∧
    exStateL2.do_proximal_operation [3] =
      (exL2.update_variable_for_proximity [3] exStateL2.m_penalty_weight, none) ∧
    exState.do_proximal_operation [3] =
      (exL1.update_variable_for_proximity [3]
        (exState.m_penalty_weight *
          exLR.get_learning_rate exState.m_iter_counter), none) :=
  ⟨(C1_do_proximal_operation exStatePlain exPlain [3] rfl).1 rfl,
   (C1_do_proximal_operation exStateL2 exL2 [3] rfl).2.1 rfl rfl,
   (C1_do_proximal_operation exState exL1 [3] rfl).2.2 exLR rfl rfl rfl⟩

/-- C2 counterexample: a minimizer with a sparsity-inducing proximal penalty,
no learning-rate schedule, and the other required collaborators present:
`init_minimization` reports no error, refuting the claim that the missing
learning rate fails at `init_minimization`. -/
theorem C2_counterexample :
    ex2.m_learning_rate = none ∧ ex2.m_penalty_type = some exL1 ∧
    exL1.isProximal = true ∧ exL1.isSparse = true ∧
    (ex2.init_minimization).2 = none :=
  ⟨rfl, rfl, rfl, rfl, rfl⟩

/-- C2 (amended): with a sparsity-inducing proximal penalty and no
learning-rate schedule, the missing learning rate is reported as an error at
the first proximal step (`do_proximal_operation`), not at `init_minimization`:
`init_minimization` still succeeds whenever cost function, updater and a
positive pass budget are present. -/
theorem C2_sparse_penalty_lr_checked_at_step (s : FirstOrderStochasticMinimizer)
    (p : Penalty) (v : List ℚ) (hp : s.m_penalty_type = some p)
    (hprox : p.isProximal = true) (hsp : p.isSparse = true)
    (hlr : s.m_learning_rate = none) :
    s.do_proximal_operation v =
      (v, some "Learning rate must set when Sparse Penalty (eg, L1) is used") ∧
    (s.m_fun ≠ none → s.m_gradient_updater ≠ none → s.m_num_passes > 0 →
      (s.init_minimization).2 = none) := by
  constructor
  · simp [FirstOrderStochasticMinimizer.do_proximal_operation, hp, hprox, hsp, hlr]
  · intro h1 h2 h3
    simp [FirstOrderStochasticMinimizer.init_minimization, h1, h2, h3]

/-- C2 amended witness: the concrete misconfigured minimizer `ex2`. -/
theorem C2_sparse_penalty_lr_checked_at_step_witness :
    ex2.do_proximal_operation [2] =
      ([2], some "Learning rate must set when Sparse Penalty (eg, L1) is used") ∧
    (ex2.init_minimization).2 = none :=
  ⟨(C2_sparse_penalty_lr_checked_at_step ex2 exL1 [2] rfl rfl rfl rfl).1,
   (C2_sparse_penalty_lr_checked_at_step ex2 exL1 [2] rfl rfl rfl rfl).2
     (by decide) (by decide) (by decide)⟩

/-- C3: `init_minimization` succeeds exactly when a cost function is set, a
gradient updater is set, and the number of passes is positive; on success it
resets the pass counter to zero (and changes nothing else). -/
theorem C3_init_minimization_validates (s : FirstOrderStochasticMinimizer) :
    ((s.init_minimization).2 = none ↔
      s.m_fun ≠ none ∧ s.m_gradient_updater ≠ none ∧ s.m_num_passes > 0) ∧
    ((s.init_minimization).2 = none →
      (s.init_minimization).1 = { s with m_cur_passes := 0 }) := by
  by_cases h1 : s.m_fun = none <;>
    by_cases h2 : s.m_gradient_updater = none <;>
    by_cases h3 : s.m_num_passes > 0 <;>
    simp [FirstOrderStochasticMinimizer.init_minimization, h1, h2, h3]

/-- C3 witness: the configured state `exState` passes validation and its pass
counter is reset. -/
theorem C3_init_minimization_validates_witness :
    (exState.init_minimization).2 = none ∧
    (exState.init_minimization).1.m_cur_passes = 0 := by
  have h := C3_init_minimization_validates exState
  have hok : (exState.init_minimization).2 = none :=
    h.1.mpr ⟨by decide, by decide, by decide⟩
  exact ⟨hok, by rw [h.2 hok]⟩

/-- C4 counterexample: on the validly configured state `ex4` whose iteration
counter is 5, `init_minimization` succeeds and zeroes the pass counter, yet the
iteration counter stays 5, refuting the claim that both counters are zero
after a successful `init_minimization`. -/
theorem C4_counterexample :
    (ex4.init_minimization).2 = none ∧
    (ex4.init_minimization).1.m_cur_passes = 0 ∧
    (ex4.init_minimization).1.m_iter_counter = 5 :=
  ⟨rfl, rfl, rfl⟩

/-- C4 (amended): `init_minimization` leaves the iteration counter unchanged
(it resets only the pass counter); the iteration counter is reset to zero at
the construction boundary, by `init`, which zeroes both counters. -/
theorem C4_iter_counter_reset_at_construction
    (s : FirstOrderStochasticMinimizer) :
    (s.init_minimization).1.m_iter_counter = s.m_iter_counter ∧
    (s.init).m_iter_counter = 0 ∧ (s.init).m_cur_passes = 0 := by
  refine ⟨?_, rfl, rfl⟩
  by_cases h1 : s.m_fun = none <;>
    by_cases h2 : s.m_gradient_updater = none <;>
    by_cases h3 : s.m_num_passes > 0 <;>
    simp [FirstOrderStochasticMinimizer.init_minimization, h1, h2, h3]

/-- C5: `set_number_passes` fails with the configuration error for every
non-positive count and stores the count for every positive one. -/
theorem C5_set_number_passes (s : FirstOrderStochasticMinimizer) (n : Int) :
    (n ≤ 0 → s.set_number_passes n =
      (s, some ("The number (" ++ toString n ++
        ") to go through data must be positive"))) ∧
    (0 < n → s.set_number_passes n = ({ s with m_num_passes := n }, none)) := by
  constructor <;> intro h <;>
    simp [FirstOrderStochasticMinimizer.set_number_passes, h, not_lt.mpr, *]

/-- C5 witness: 0 and -1 are rejected, 5 is accepted and stored. -/
theorem C5_set_number_passes_witness :
    (exState.set_number_passes 0).2 ≠ none ∧
    (exState.set_number_passes (-1)).2 ≠ none ∧
    exState.set_number_passes 5 = ({ exState with m_num_passes := 5 }, none) := by
  refine ⟨?_, ?_, (C5_set_number_passes exState 5).2 (by norm_num)⟩
  · rw [(C5_set_number_passes exState 0).1 (by norm_num)]; simp
  · rw [(C5_set_number_passes exState (-1)).1 (by norm_num)]; simp

/-- C6: `set_gradient_updater` rejects the null updater (the state is
returned unchanged with the contract-violation error) and, for every non-null
updater, succeeds and stores it. -/
theorem C6_set_gradient_updater (s : FirstOrderStochasticMinimizer) (u : Nat) :
    s.set_gradient_updater none = (s, some "Gradient updater must set") ∧
    (s.set_gradient_updater (some u)).2 = none ∧
    (s.set_gradient_updater (some u)).1.m_gradient_updater = some u := by
  by_cases h : s.m_gradient_updater = some u <;>
    simp [FirstOrderStochasticMinimizer.set_gradient_updater, h]

/-- C8: failed configuration setters are atomic: a non-positive pass count and
a null updater each leave the state exactly as it was, with an error raised. -/
theorem C8_failed_setters_atomic (s : FirstOrderStochasticMinimizer) (n : Int)
    (h : n ≤ 0) :
    (s.set_number_passes n).1 = s ∧ (s.set_number_passes n).2 ≠ none ∧
    (s.set_gradient_updater none).1 = s ∧
    (s.set_gradient_updater none).2 ≠ none := by
  simp [FirstOrderStochasticMinimizer.set_number_passes,
    FirstOrderStochasticMinimizer.set_gradient_updater, not_lt.mpr h]

/-- C8 witness: the atomicity facts at `exState` with pass count 0. -/
theorem C8_failed_setters_atomic_witness :
    (exState.set_number_passes 0).1 = exState ∧
    (exState.set_number_passes 0).2 ≠ none ∧
    (exState.set_gradient_updater none).1 = exState ∧
    (exState.set_gradient_updater none).2 ≠ none :=
  C8_failed_setters_atomic exState 0 (by norm_num)

/-- C10: `set_learning_rate` accepts the null schedule without any check and
stores it; the absence is detected only later, when a sparse proximal step
queries the learning rate and fails. -/
theorem C10_set_learning_rate_null (s : FirstOrderStochasticMinimizer)
    (p : Penalty) (v : List ℚ) (hp : s.m_penalty_type = some p)
    (hprox : p.isProximal = true) (hsp : p.isSparse = true) :
    (s.set_learning_rate none).2 = none ∧
    (s.set_learning_rate none).1.m_learning_rate = none ∧
    (s.set_learning_rate none).1.do_proximal_operation v =
      (v, some "Learning rate must set when Sparse Penalty (eg, L1) is used") := by
  cases hlr : s.m_learning_rate with
  | none =>
    simp [FirstOrderStochasticMinimizer.set_learning_rate,
      FirstOrderStochasticMinimizer.lrPtr, hlr,
      FirstOrderStochasticMinimizer.do_proximal_operation, hp, hprox, hsp]
  | some l =>
    simp [FirstOrderStochasticMinimizer.set_learning_rate,
      FirstOrderStochasticMinimizer.lrPtr, hlr,
      FirstOrderStochasticMinimizer.do_proximal_operation, hp, hprox, hsp]

/-- C10 witness: nulling the schedule on `exState` (which carries the sparse
proximal penalty) succeeds, and the next proximal step reports the error. -/
theorem C10_set_learning_rate_null_witness :
    (exState.set_learning_rate none).2 = none ∧
    (exState.set_learning_rate none).1.m_learning_rate = none ∧
    (exState.set_learning_rate none).1.do_proximal_operation [2] =
      ([2], some "Learning rate must set when Sparse Penalty (eg, L1) is used") :=
  C10_set_learning_rate_null exState exL1 [2] rfl rfl rfl

/-- The accumulation loop computes, componentwise, the sum of the pointwise
absolute differences and the sum of the pointwise absolute sums. -/
theorem BrayCurtisDistance.foldl_pair (l : List (ℚ × ℚ)) (c : ℚ × ℚ) :
    l.foldl (fun s ab => (s.1 + |ab.1 - ab.2|, s.2 + |ab.1 + ab.2|)) c =
      (c.1 + (l.map (fun ab => |ab.1 - ab.2|)).sum,
       c.2 + (l.map (fun ab => |ab.1 + ab.2|)).sum) := by
  induction l generalizing c with
  | nil => simp
  | cons hd tl ih =>
    simp only [List.foldl_cons, List.map_cons, List.sum_cons, ih, Prod.mk.injEq]
    exact ⟨by ring, by ring⟩

/-- `sums` as the pair of the two elementwise sums. -/
theorem BrayCurtisDistance.sums_eq (avec bvec : List ℚ) :
    BrayCurtisDistance.sums avec bvec =
      (((avec.zip bvec).map (fun ab => |ab.1 - ab.2|)).sum,
       ((avec.zip bvec).map (fun ab => |ab.1 + ab.2|)).sum) := by
  simp [BrayCurtisDistance.sums, BrayCurtisDistance.foldl_pair]

/-- A pair drawn from a list zipped with itself has equal components. -/
theorem zip_self_fst_eq_snd (a : List ℚ) : ∀ p ∈ a.zip a, p.1 = p.2 := by
  induction a with
  | nil => simp
  | cons hd tl ih =>
    intro p hp
    simp only [List.zip_cons_cons, List.mem_cons] at hp
    rcases hp with h | h
    · subst h; rfl
    · exact ih p h

/-- Both accumulated sums are symmetric in the two vectors. -/
theorem BrayCurtisDistance.sums_symm (avec bvec : List ℚ) :
    BrayCurtisDistance.sums bvec avec = BrayCurtisDistance.sums avec bvec := by
  rw [BrayCurtisDistance.sums_eq, BrayCurtisDistance.sums_eq,
    ← List.zip_swap avec bvec, List.map_map, List.map_map]
  have h1 : ((fun ab : ℚ × ℚ => |ab.1 - ab.2|) ∘ Prod.swap) =
      fun ab : ℚ × ℚ => |ab.1 - ab.2| := by
    funext p
    simp only [Function.comp_apply, Prod.fst_swap, Prod.snd_swap]
    exact abs_sub_comm p.2 p.1
  have h2 : ((fun ab : ℚ × ℚ => |ab.1 + ab.2|) ∘ Prod.swap) =
      fun ab : ℚ × ℚ => |ab.1 + ab.2| := by
    funext p
    simp only [Function.comp_apply, Prod.fst_swap, Prod.snd_swap]
    rw [add_comm]
  rw [h1, h2]

/-- C7: for equal-length vectors, `compute` returns exactly 0 on two equal
vectors, returns exactly 0 (the division-by-zero trap, never a fault) when
every elementwise sum is zero, and otherwise returns the sum of absolute
differences divided by the sum of absolute sums. -/
theorem C7_compute_zero_guard (a b : List ℚ) (hlen : a.length = b.length) :
    (a = b → BrayCurtisDistance.compute a b = 0) ∧
    ((∀ p ∈ a.zip b, p.1 + p.2 = 0) → BrayCurtisDistance.compute a b = 0) ∧
    ((BrayCurtisDistance.sums a b).2 ≠ 0 →
      BrayCurtisDistance.compute a b =
        (BrayCurtisDistance.sums a b).1 / (BrayCurtisDistance.sums a b).2) := by
  refine ⟨fun hab => ?_, fun hz => ?_, fun hne => ?_⟩
  · subst hab
    have hz1 : ((a.zip a).map (fun ab => |ab.1 - ab.2|)).sum = 0 := by
      apply List.sum_eq_zero
      intro x hx
      obtain ⟨p, hp, rfl⟩ := List.mem_map.mp hx
      rw [zip_self_fst_eq_snd a p hp]
      simp
    simp [BrayCurtisDistance.compute, BrayCurtisDistance.sums_eq, hz1]
  · have hz2 : ((a.zip b).map (fun ab => |ab.1 + ab.2|)).sum = 0 := by
      apply List.sum_eq_zero
      intro x hx
      obtain ⟨p, hp, rfl⟩ := List.mem_map.mp hx
      rw [hz p hp]
      simp
    simp [BrayCurtisDistance.compute, BrayCurtisDistance.sums_eq, hz2]
  · simp only [BrayCurtisDistance.compute, if_neg hne]

/-- C7 witness: equal non-zero vectors, elementwise-cancelling vectors, and a
pair with non-zero denominator where the quotient shape is reached. -/
theorem C7_compute_zero_guard_witness :
    BrayCurtisDistance.compute [1, 2] [1, 2] = 0 ∧
    BrayCurtisDistance.compute [1, -2] [-1, 2] = 0 ∧
    BrayCurtisDistance.compute [1, 0] [0, 1] =
      (BrayCurtisDistance.sums [1, 0] [0, 1]).1 /
        (BrayCurtisDistance.sums [1, 0] [0, 1]).2 :=
  ⟨(C7_compute_zero_guard [1, 2] [1, 2] rfl).1 rfl,
   (C7_compute_zero_guard [1, -2] [-1, 2] rfl).2.1 (by
     intro p hp
     simp only [List.zip_cons_cons, List.zip_nil_right, List.mem_cons,
       List.not_mem_nil, or_false] at hp
     rcases hp with h | h <;> subst h <;> norm_num),
   (C7_compute_zero_guard [1, 0] [0, 1] rfl).2.2 (by
     norm_num [BrayCurtisDistance.sums])⟩

/-- C9: the Bray-Curtis distance is symmetric: swapping the two equal-length
feature vectors leaves `compute` unchanged. -/
theorem C9_compute_symm (a b : List ℚ) (_hlen : a.length = b.length) :
    BrayCurtisDistance.compute a b = BrayCurtisDistance.compute b a := by
  simp only [BrayCurtisDistance.compute]
  rw [BrayCurtisDistance.sums_symm a b]

/-- C9 witness: symmetry at a concrete pair of vectors. -/
theorem C9_compute_symm_witness :
    BrayCurtisDistance.compute [3, 1] [1, 2] =
      BrayCurtisDistance.compute [1, 2] [3, 1] :=
  C9_compute_symm [3, 1] [1, 2] rfl
